import Mathlib

/-!
# Verification of the stream anomaly detector (`src/script.py`)

Shallow embedding of the `AnomalyDetector` class over exact rationals
(python floats become `ℚ`; `np.median` becomes `npMedian`, the sort-based
median numpy computes).  A second, parallel embedding over a value type
with a NaN element models the IEEE behavior of `update` on non-finite
inputs, which the plain rational embedding cannot express.
-/

set_option maxRecDepth 100000

/-- Insert `x` into a sorted rational list, keeping it sorted
(ascending).  Used to implement the sort underlying `np.median`. -/
def insertSorted (x : ℚ) : List ℚ → List ℚ
  | [] => [x]
  | y :: ys => if x ≤ y then x :: y :: ys else y :: insertSorted x ys

/-- Insertion sort on rational lists (ascending). -/
def sortQ : List ℚ → List ℚ
  | [] => []
  | x :: xs => insertSorted x (sortQ xs)

/-- Embedding of `np.median`: sort the list; for odd length take the middle element,
for even length average the two middle elements.  (Total function;
the detector only calls it on nonempty lists.) -/
def npMedian (l : List ℚ) : ℚ :=
  let s := sortQ l
  let n := l.length
  if n % 2 = 1 then s.getD (n / 2) 0
  else (s.getD (n / 2 - 1) 0 + s.getD (n / 2) 0) / 2

/-- The MAD computation of `AnomalyDetector.update` (script.py lines
57-62): once more than 30 residuals exist, the deviations run over the
last 30 residuals (`self.residuals[-30:]`) but the centering median is
`np.median(self.residuals)`, the median of the ENTIRE history; with at
most 30 residuals both run over the entire history. -/
def madCompute (residuals : List ℚ) : ℚ :=
  if residuals.length > 30 then
    let median := npMedian residuals
    npMedian ((residuals.drop (residuals.length - 30)).map (fun r => |r - median|))
  else
    npMedian (residuals.map (fun r => |r - npMedian residuals|))

/-- The modified z-score of `update` (script.py lines 64-68): `0` when
`mad = 0`, otherwise `0.6745 * residual / mad` (`0.6745 = 1349/2000`). -/
def modified_z_score (residual mad : ℚ) : ℚ :=
  if mad = 0 then 0 else 1349 / 2000 * residual / mad

/-- State of one `AnomalyDetector` instance (script.py lines 37-42).
`current_ema` and `mad` start as python `None`, hence `Option`. -/
structure AnomalyDetector where
  ema_alpha : ℚ
  current_ema : Option ℚ
  mad : Option ℚ
  threshold : ℚ
  residuals : List ℚ
deriving DecidableEq

/-- Embedding of `AnomalyDetector.__init__`: stores the two parameters and initializes
`current_ema = None`, `mad = None`, `residuals = []`.  The python
constructor performs no range check on either parameter. -/
def AnomalyDetector.init (ema_alpha threshold : ℚ) : AnomalyDetector :=
  { ema_alpha := ema_alpha, current_ema := none, mad := none,
    threshold := threshold, residuals := [] }

/-- Embedding of `AnomalyDetector.update` (script.py lines 44-72): returns the boolean
verdict together with the mutated state. -/
def AnomalyDetector.update (s : AnomalyDetector) (value : ℚ) :
    Bool × AnomalyDetector :=
  match s.current_ema with
  | none =>
    (false, { s with current_ema := some value, mad := some 0,
                     residuals := s.residuals ++ [0] })
  | some ema =>
    let newEma := s.ema_alpha * value + (1 - s.ema_alpha) * ema
    let residual := value - newEma
    let residuals := s.residuals ++ [residual]
    let mad := madCompute residuals
    (decide (|modified_z_score residual mad| > s.threshold),
     { s with current_ema := some newEma, mad := some mad,
              residuals := residuals })

/-- Feed a list of values one at a time; collect the verdicts and the
final state (the caller's push loop around `detector.update`). -/
def runDetector (s : AnomalyDetector) : List ℚ → List Bool × AnomalyDetector
  | [] => ([], s)
  | v :: vs =>
    let p := s.update v
    let q := runDetector p.2 vs
    (p.1 :: q.1, q.2)

/-- The dispersion formula exactly as claim C1 states it for a history of
30 or more residuals: both the deviations and the centering median range
over the trailing 30-element slice. -/
def madClaimWindow (residuals : List ℚ) : ℚ :=
  let w := residuals.drop (residuals.length - 30)
  let m := npMedian w
  npMedian (w.map (fun r => |r - m|))

/-- Concrete 32-value input stream (for `ema_alpha = 1/2`) whose residual
history becomes `[0] ++ 0^15 ++ [1] ++ 10^15`: a cold start, fifteen
points on the baseline, one residual of `1`, then fifteen residuals of
`10`. -/
def c1Inputs : List ℚ :=
  [0] ++ List.replicate 15 0 ++ [2] ++
    (List.range 15).map (fun k => 21 + 10 * (k : ℚ))

/-- Concrete 10-value input stream (for `ema_alpha = 1/2`) producing the
residual history `[0, 1, -1, 1, -1, 1, -1, 1, -1, 100]`: alternating
noise and then one large spike, so that the spike call is flagged. -/
def c7Inputs : List ℚ :=
  [0, 2, -1, 2, -1, 2, -1, 2, -1, 200]

/-- IEEE-style scalar: a finite rational or NaN.  Models python floats
just far enough to express what `update` does on a non-finite input. -/
inductive FP where
  | num (q : ℚ)
  | nan
deriving DecidableEq

/-- Float addition: NaN propagates. -/
def FP.add : FP → FP → FP
  | FP.num a, FP.num b => FP.num (a + b)
  | _, _ => FP.nan

/-- Float subtraction: NaN propagates. -/
def FP.sub : FP → FP → FP
  | FP.num a, FP.num b => FP.num (a - b)
  | _, _ => FP.nan

/-- Float multiplication: NaN propagates. -/
def FP.mul : FP → FP → FP
  | FP.num a, FP.num b => FP.num (a * b)
  | _, _ => FP.nan

/-- Float division (only reached with nonzero divisor): NaN propagates. -/
def FP.div : FP → FP → FP
  | FP.num a, FP.num b => FP.num (a / b)
  | _, _ => FP.nan

/-- Float absolute value: `abs NaN = NaN`. -/
def FP.fabs : FP → FP
  | FP.num a => FP.num |a|
  | FP.nan => FP.nan

def FP.isNan : FP → Bool
  | FP.nan => true
  | FP.num _ => false

/-- The python test `self.mad == 0`: false for NaN. -/
def FP.eqZero : FP → Bool
  | FP.num a => decide (a = 0)
  | FP.nan => false

/-- The python test `abs(z) > threshold`: comparison with NaN is false. -/
def FP.gtQ : FP → ℚ → Bool
  | FP.num a, t => decide (a > t)
  | FP.nan, _ => false

/-- Embedding of `np.median` over floats: NaN anywhere in the input makes the result
NaN, otherwise the median of the finite values. -/
def npMedianFP (l : List FP) : FP :=
  if l.any FP.isNan then FP.nan
  else FP.num (npMedian (l.filterMap
    (fun x => match x with | FP.num q => some q | FP.nan => none)))

/-- Detector state over IEEE-style scalars (same shape as
`AnomalyDetector`, with float-valued `current_ema`, `mad`, `residuals`). -/
structure FPDetector where
  ema_alpha : ℚ
  current_ema : Option FP
  mad : Option FP
  threshold : ℚ
  residuals : List FP
deriving DecidableEq

/-- Embedding of `AnomalyDetector.__init__` over IEEE-style scalars. -/
def FPDetector.init (ema_alpha threshold : ℚ) : FPDetector :=
  { ema_alpha := ema_alpha, current_ema := none, mad := none,
    threshold := threshold, residuals := [] }

/-- Embedding of `AnomalyDetector.update` over IEEE-style scalars: the same code path
as `AnomalyDetector.update`, with every arithmetic operation replaced by
its NaN-propagating counterpart.  There is no finiteness check anywhere
in the python `update`, so none appears here. -/
def FPDetector.update (s : FPDetector) (value : FP) : Bool × FPDetector :=
  match s.current_ema with
  | none =>
    (false, { s with current_ema := some value, mad := some (FP.num 0),
                     residuals := s.residuals ++ [FP.num 0] })
  | some ema =>
    let newEma := FP.add (FP.mul (FP.num s.ema_alpha) value)
                         (FP.mul (FP.num (1 - s.ema_alpha)) ema)
    let residual := FP.sub value newEma
    let residuals := s.residuals ++ [residual]
    let mad :=
      if residuals.length > 30 then
        let median := npMedianFP residuals
        npMedianFP ((residuals.drop (residuals.length - 30)).map
          (fun r => FP.fabs (FP.sub r median)))
      else
        npMedianFP (residuals.map
          (fun r => FP.fabs (FP.sub r (npMedianFP residuals))))
    let z := if FP.eqZero mad then FP.num 0
             else FP.div (FP.mul (FP.num (1349 / 2000)) residual) mad
    (FP.gtQ (FP.fabs z) s.threshold,
     { s with current_ema := some newEma, mad := some mad,
              residuals := residuals })

/-- Unfolding `update` on a fresh detector (`current_ema = None`). -/
theorem update_none (s : AnomalyDetector) (v : ℚ) (h : s.current_ema = none) :
    s.update v =
      (false, { s with current_ema := some v, mad := some 0,
                       residuals := s.residuals ++ [0] }) := by
  simp only [AnomalyDetector.update, h]

/-- Unfolding `update` on a warm detector (`current_ema = some e`). -/
theorem update_some (s : AnomalyDetector) (e v : ℚ) (h : s.current_ema = some e) :
    s.update v =
      (decide (|modified_z_score (v - (s.ema_alpha * v + (1 - s.ema_alpha) * e))
          (madCompute (s.residuals ++ [v - (s.ema_alpha * v + (1 - s.ema_alpha) * e)]))|
          > s.threshold),
       { s with
         current_ema := some (s.ema_alpha * v + (1 - s.ema_alpha) * e),
         mad := some (madCompute
           (s.residuals ++ [v - (s.ema_alpha * v + (1 - s.ema_alpha) * e)])),
         residuals := s.residuals ++ [v - (s.ema_alpha * v + (1 - s.ema_alpha) * e)] }) := by
  simp only [AnomalyDetector.update, h]

/-- C4: the first call to `update` on a freshly constructed detector
returns `false`, sets `ema` to the value, sets the dispersion `mad` to
`0`, and appends the residual `0` to the history. -/
theorem first_update_cold_start (a t v : ℚ) :
    (AnomalyDetector.init a t).update v =
      (false, { ema_alpha := a, current_ema := some v, mad := some 0,
                threshold := t, residuals := [0] }) := by
  rfl

/-- C2 counterexample: construction with `alpha = 2` (outside `(0, 1]`)
and `threshold = -1` (not positive) does not fail: it produces an
ordinary detector state holding those parameters.  The constructor is a
total function with no error outcome, so the claimed `InvalidParameter`
failure cannot occur. -/
theorem init_accepts_invalid_parameters :
    ¬(0 < (2 : ℚ) ∧ (2 : ℚ) ≤ 1) ∧ ¬(0 < (-1 : ℚ)) ∧
    AnomalyDetector.init 2 (-1) =
      { ema_alpha := 2, current_ema := none, mad := none,
        threshold := -1, residuals := [] } := by
  refine ⟨?_, ?_, rfl⟩ <;> with_unfolding_all decide

/-- C2 amended: construction never fails; `__init__` stores `alpha` and
`threshold` unvalidated (no range check is performed on either). -/
theorem init_stores_parameters_unvalidated (a t : ℚ) :
    AnomalyDetector.init a t =
      { ema_alpha := a, current_ema := none, mad := none,
        threshold := t, residuals := [] } := rfl

/-- C1 counterexample: after feeding `c1Inputs` (32 calls, residual
history of length 32 ≥ 30) with `alpha = 1/2`, the detector's `mad` is
`5`, while the formula the claim states (median of absolute deviations
from the median of the trailing 30-element slice) gives `9/2`. -/
theorem mad_window_slice_median_counterexample :
    30 ≤ ((runDetector (AnomalyDetector.init (1/2) (7/2)) c1Inputs).2.residuals).length ∧
    (runDetector (AnomalyDetector.init (1/2) (7/2)) c1Inputs).2.mad = some 5 ∧
    madClaimWindow ((runDetector (AnomalyDetector.init (1/2) (7/2)) c1Inputs).2.residuals) = 9 / 2 ∧
    (runDetector (AnomalyDetector.init (1/2) (7/2)) c1Inputs).2.mad ≠
      some (madClaimWindow ((runDetector (AnomalyDetector.init (1/2) (7/2)) c1Inputs).2.residuals)) := by
  with_unfolding_all decide

/-- C1 amended: on every warm `update` call, the new `mad` is: when the
post-append history holds more than 30 residuals, the median of the
absolute deviations of the LAST 30 residuals from the median of the
ENTIRE history (not of the slice); otherwise (30 or fewer) the median of
the absolute deviations of the entire history from its own median.  In
particular the trailing-window branch starts only at the 31st residual. -/
theorem mad_uses_full_history_median (s : AnomalyDetector) (e v : ℚ)
    (h : s.current_ema = some e) :
    (s.update v).2.mad =
      some (if (s.residuals ++ [v - (s.ema_alpha * v + (1 - s.ema_alpha) * e)]).length > 30 then
        npMedian (((s.residuals ++ [v - (s.ema_alpha * v + (1 - s.ema_alpha) * e)]).drop
            ((s.residuals ++ [v - (s.ema_alpha * v + (1 - s.ema_alpha) * e)]).length - 30)).map
          (fun r => |r - npMedian (s.residuals ++ [v - (s.ema_alpha * v + (1 - s.ema_alpha) * e)])|))
      else
        npMedian ((s.residuals ++ [v - (s.ema_alpha * v + (1 - s.ema_alpha) * e)]).map
          (fun r => |r - npMedian (s.residuals ++ [v - (s.ema_alpha * v + (1 - s.ema_alpha) * e)])|))) := by
  rw [update_some s e v h]
  rfl

/-- Witness for `mad_uses_full_history_median` at a concrete warm state. -/
theorem mad_uses_full_history_median_witness :
    ((⟨1/2, some 4, some 0, 7/2, [0]⟩ : AnomalyDetector).update 2).2.mad =
      some (if (([0] : List ℚ) ++ [2 - (1/2 * 2 + (1 - 1/2) * 4)]).length > 30 then
        npMedian (((([0] : List ℚ) ++ [2 - (1/2 * 2 + (1 - 1/2) * 4)]).drop
            ((([0] : List ℚ) ++ [2 - (1/2 * 2 + (1 - 1/2) * 4)]).length - 30)).map
          (fun r => |r - npMedian (([0] : List ℚ) ++ [2 - (1/2 * 2 + (1 - 1/2) * 4)])|))
      else
        npMedian ((([0] : List ℚ) ++ [2 - (1/2 * 2 + (1 - 1/2) * 4)]).map
          (fun r => |r - npMedian (([0] : List ℚ) ++ [2 - (1/2 * 2 + (1 - 1/2) * 4)])|))) :=
  mad_uses_full_history_median ⟨1/2, some 4, some 0, 7/2, [0]⟩ 4 2 rfl

/-- C6: on every warm `update` call the baseline is updated first
(`ema ← alpha * value + (1 - alpha) * ema`) and the residual appended to
the history is `value` minus the already-updated ema. -/
theorem ema_updated_before_residual (s : AnomalyDetector) (e v : ℚ)
    (h : s.current_ema = some e) :
    (s.update v).2.current_ema = some (s.ema_alpha * v + (1 - s.ema_alpha) * e) ∧
    (s.update v).2.residuals =
      s.residuals ++ [v - (s.ema_alpha * v + (1 - s.ema_alpha) * e)] := by
  rw [update_some s e v h]
  exact ⟨rfl, rfl⟩

/-- Witness for `ema_updated_before_residual` at a concrete warm state. -/
theorem ema_updated_before_residual_witness :
    ((⟨1/2, some 4, some 0, 7/2, [0]⟩ : AnomalyDetector).update 2).2.current_ema
        = some (1/2 * 2 + (1 - 1/2) * 4) ∧
    ((⟨1/2, some 4, some 0, 7/2, [0]⟩ : AnomalyDetector).update 2).2.residuals
        = [0] ++ [2 - (1/2 * 2 + (1 - 1/2) * 4)] :=
  ema_updated_before_residual ⟨1/2, some 4, some 0, 7/2, [0]⟩ 4 2 rfl

/-- One-step unfolding of the run loop. -/
theorem runDetector_cons (s : AnomalyDetector) (v : ℚ) (vs : List ℚ) :
    runDetector s (v :: vs) =
      ((s.update v).1 :: (runDetector (s.update v).2 vs).1,
       (runDetector (s.update v).2 vs).2) := rfl

/-- Every `update` call appends exactly one residual. -/
theorem update_residuals_length (s : AnomalyDetector) (v : ℚ) :
    (s.update v).2.residuals.length = s.residuals.length + 1 := by
  cases h : s.current_ema with
  | none => rw [update_none s v h]; simp
  | some e => rw [update_some s e v h]; simp

/-- After any `update` call the baseline is defined. -/
theorem update_ema_isSome (s : AnomalyDetector) (v : ℚ) :
    ((s.update v).2.current_ema).isSome := by
  cases h : s.current_ema with
  | none => rw [update_none s v h]; rfl
  | some e => rw [update_some s e v h]; rfl

/-- The run loop grows the residual history by one per input. -/
theorem run_residuals_length (s : AnomalyDetector) (vs : List ℚ) :
    (runDetector s vs).2.residuals.length = s.residuals.length + vs.length := by
  induction vs generalizing s with
  | nil => rfl
  | cons v vs ih =>
    rw [runDetector_cons]
    show (runDetector (s.update v).2 vs).2.residuals.length = _
    rw [ih, update_residuals_length, List.length_cons]
    omega

/-- A defined baseline stays defined across the run loop. -/
theorem run_preserves_isSome (s : AnomalyDetector) (vs : List ℚ)
    (h : (s.current_ema).isSome) :
    ((runDetector s vs).2.current_ema).isSome := by
  induction vs generalizing s with
  | nil => exact h
  | cons v vs ih =>
    rw [runDetector_cons]
    exact ih (s.update v).2 (update_ema_isSome s v)

/-- C8: after `n` calls to `update` on a fresh detector the residual
history has length exactly `n`, and `ema` is `None` exactly when no call
has been made yet. -/
theorem residual_history_length_invariant (a t : ℚ) (vs : List ℚ) :
    (runDetector (AnomalyDetector.init a t) vs).2.residuals.length = vs.length ∧
    ((runDetector (AnomalyDetector.init a t) vs).2.current_ema = none ↔ vs = []) := by
  refine ⟨by rw [run_residuals_length]; simp [AnomalyDetector.init], ?_⟩
  cases vs with
  | nil => exact ⟨fun _ => rfl, fun _ => rfl⟩
  | cons v vs =>
    constructor
    · intro h
      have hs := run_preserves_isSome ((AnomalyDetector.init a t).update v).2 vs
        (update_ema_isSome _ v)
      rw [runDetector_cons] at h
      rw [h] at hs
      exact absurd hs (by simp)
    · intro h
      exact absurd h (by simp)


/-- Changing only `threshold` never changes how `update` mutates the
state (the threshold is read only for the verdict). -/
theorem update_state_threshold (a : ℚ) (em md : Option ℚ) (t t' : ℚ)
    (rs : List ℚ) (v : ℚ) :
    ((⟨a, em, md, t', rs⟩ : AnomalyDetector).update v).2 =
      { ((⟨a, em, md, t, rs⟩ : AnomalyDetector).update v).2 with threshold := t' } := by
  cases em with
  | none => rfl
  | some e => rfl

/-- Lowering the threshold turns no flagged point into an unflagged one
on a single `update` call. -/
theorem update_verdict_mono (a : ℚ) (em md : Option ℚ) (t t' : ℚ)
    (rs : List ℚ) (v : ℚ) (hle : t ≤ t')
    (h : ((⟨a, em, md, t', rs⟩ : AnomalyDetector).update v).1 = true) :
    ((⟨a, em, md, t, rs⟩ : AnomalyDetector).update v).1 = true := by
  cases em with
  | none => exact absurd h (by simp [AnomalyDetector.update])
  | some e =>
    simp only [AnomalyDetector.update, decide_eq_true_eq] at h ⊢
    exact lt_of_le_of_lt hle h

/-- The run loop's state evolution is independent of the threshold. -/
theorem run_state_threshold (vs : List ℚ) :
    ∀ (a : ℚ) (em md : Option ℚ) (t t' : ℚ) (rs : List ℚ),
    (runDetector ⟨a, em, md, t', rs⟩ vs).2 =
      { (runDetector ⟨a, em, md, t, rs⟩ vs).2 with threshold := t' } := by
  induction vs with
  | nil => intro a em md t t' rs; rfl
  | cons v vs ih =>
    intro a em md t t' rs
    rw [runDetector_cons, runDetector_cons]
    cases em with
    | none =>
      show (runDetector ⟨a, some v, some 0, t', rs ++ [0]⟩ vs).2 = _
      exact ih a (some v) (some 0) t t' (rs ++ [0])
    | some e =>
      show (runDetector ⟨a, some (a * v + (1 - a) * e),
        some (madCompute (rs ++ [v - (a * v + (1 - a) * e)])), t',
        rs ++ [v - (a * v + (1 - a) * e)]⟩ vs).2 = _
      exact ih a _ _ t t' _

/-- Verdict monotonicity in the threshold, along a whole run. -/
theorem run_verdict_mono (vs : List ℚ) :
    ∀ (a : ℚ) (em md : Option ℚ) (t t' : ℚ) (rs : List ℚ), t ≤ t' →
    ∀ i : ℕ, (runDetector ⟨a, em, md, t', rs⟩ vs).1.getD i false = true →
      (runDetector ⟨a, em, md, t, rs⟩ vs).1.getD i false = true := by
  induction vs with
  | nil =>
    intro a em md t t' rs _ i h
    exact absurd h (by simp [runDetector])
  | cons v vs ih =>
    intro a em md t t' rs hle i h
    rw [runDetector_cons] at h ⊢
    cases i with
    | zero =>
      simp only [List.getD_cons_zero] at h ⊢
      exact update_verdict_mono a em md t t' rs v hle h
    | succ i =>
      simp only [List.getD_cons_succ] at h ⊢
      cases em with
      | none =>
        exact ih a (some v) (some 0) t t' (rs ++ [0]) hle i h
      | some e =>
        exact ih a (some (a * v + (1 - a) * e))
          (some (madCompute (rs ++ [v - (a * v + (1 - a) * e)]))) t t'
          (rs ++ [v - (a * v + (1 - a) * e)]) hle i h

/-- C7: with the same `alpha` and input sequence, every index flagged by
the detector with the higher threshold is also flagged by the detector
with the lower threshold. -/
theorem threshold_monotone_flags (a t1 t2 : ℚ) (vs : List ℚ) (hle : t1 ≤ t2) (i : ℕ)
    (h : (runDetector (AnomalyDetector.init a t2) vs).1.getD i false = true) :
    (runDetector (AnomalyDetector.init a t1) vs).1.getD i false = true :=
  run_verdict_mono vs a none none t1 t2 [] hle i h

/-- Witness for `threshold_monotone_flags`: on `c7Inputs` the spike at
index 9 is flagged at threshold `7/2`, hence also at threshold `1`. -/
theorem threshold_monotone_flags_witness :
    (runDetector (AnomalyDetector.init (1/2) 1) c7Inputs).1.getD 9 false = true :=
  threshold_monotone_flags (1/2) 1 (7/2) c7Inputs (by with_unfolding_all decide) 9
    (by with_unfolding_all decide)

/-- C10: the threshold parameter influences only the boolean verdicts:
two detectors with the same `alpha` and input sequence but different
thresholds have identical `ema`, `mad` and residual history after every
run. -/
theorem threshold_noninterference (a t1 t2 : ℚ) (vs : List ℚ) :
    (runDetector (AnomalyDetector.init a t1) vs).2.current_ema =
      (runDetector (AnomalyDetector.init a t2) vs).2.current_ema ∧
    (runDetector (AnomalyDetector.init a t1) vs).2.mad =
      (runDetector (AnomalyDetector.init a t2) vs).2.mad ∧
    (runDetector (AnomalyDetector.init a t1) vs).2.residuals =
      (runDetector (AnomalyDetector.init a t2) vs).2.residuals := by
  have h1 := run_state_threshold vs a none none t2 t1 []
  rw [show (⟨a, none, none, t1, []⟩ : AnomalyDetector) = AnomalyDetector.init a t1 from rfl,
      show (⟨a, none, none, t2, []⟩ : AnomalyDetector) = AnomalyDetector.init a t2 from rfl] at h1
  rw [h1]
  exact ⟨rfl, rfl, rfl⟩

/-- Inserting `0` into a run of zeros yields a longer run of zeros. -/
theorem insertSorted_zero_replicate (n : ℕ) :
    insertSorted 0 (List.replicate n (0 : ℚ)) = List.replicate (n + 1) 0 := by
  cases n with
  | zero => rfl
  | succ m =>
    rw [List.replicate_succ, insertSorted]
    rfl

/-- Sorting a run of zeros is the identity. -/
theorem sortQ_replicate_zero (n : ℕ) :
    sortQ (List.replicate n (0 : ℚ)) = List.replicate n 0 := by
  induction n with
  | zero => rfl
  | succ m ih =>
    rw [List.replicate_succ, sortQ, ih, insertSorted_zero_replicate]
    rfl

/-- Any position of a run of zeros reads `0` (also off the end, where the
default is `0`). -/
theorem getD_replicate_zero : ∀ (n i : ℕ), (List.replicate n (0 : ℚ)).getD i 0 = 0
  | 0, _ => rfl
  | _ + 1, 0 => rfl
  | n + 1, i + 1 => getD_replicate_zero n i

/-- The median of a run of zeros is `0`. -/
theorem npMedian_replicate_zero (n : ℕ) :
    npMedian (List.replicate n (0 : ℚ)) = 0 := by
  unfold npMedian
  rw [sortQ_replicate_zero, List.length_replicate]
  by_cases h : n % 2 = 1
  · rw [if_pos h, getD_replicate_zero]
  · rw [if_neg h, getD_replicate_zero, getD_replicate_zero]
    norm_num

/-- The detector's dispersion of a run of zero residuals is `0`, in both
the full-history and the trailing-window branch. -/
theorem madCompute_replicate_zero (n : ℕ) :
    madCompute (List.replicate n (0 : ℚ)) = 0 := by
  unfold madCompute
  rcases le_or_lt n 30 with h | h
  · have h30 : ¬ (List.replicate n (0 : ℚ)).length > 30 := by
      rw [List.length_replicate]; omega
    rw [if_neg h30]
    simp only [npMedian_replicate_zero, List.map_replicate, sub_zero, abs_zero]
  · have h30 : (List.replicate n (0 : ℚ)).length > 30 := by
      rw [List.length_replicate]; exact h
    rw [if_pos h30]
    simp only [npMedian_replicate_zero, List.drop_replicate, List.map_replicate,
      sub_zero, abs_zero]

/-- Feeding the baseline value again: the ema stays put, the residual is
`0`, the dispersion collapses to `0`, and (for a positive threshold) the
verdict is `false`. -/
theorem update_const_zero (a t v : ℚ) (md : Option ℚ) (k : ℕ) (ht : 0 < t) :
    (⟨a, some v, md, t, List.replicate k 0⟩ : AnomalyDetector).update v =
      (false, ⟨a, some v, some 0, t, List.replicate (k + 1) 0⟩) := by
  have hema : a * v + (1 - a) * v = v := by ring
  simp only [AnomalyDetector.update, hema, sub_self, ← List.replicate_succ',
    madCompute_replicate_zero]
  have hz : modified_z_score 0 0 = 0 := by simp [modified_z_score]
  rw [hz, abs_zero, Prod.mk.injEq]
  exact ⟨decide_eq_false (not_lt.mpr ht.le), rfl⟩

/-- Along a stream of repeats of the baseline value, every verdict is
`false` (for a positive threshold). -/
theorem run_const_zero (a t v : ℚ) (ht : 0 < t) (n : ℕ) :
    ∀ (k : ℕ) (md : Option ℚ),
      ∀ b ∈ (runDetector ⟨a, some v, md, t, List.replicate k 0⟩
        (List.replicate n v)).1, b = false := by
  induction n with
  | zero =>
    intro k md b hb
    exact absurd hb (by simp [runDetector])
  | succ n ih =>
    intro k md b hb
    rw [List.replicate_succ, runDetector_cons, update_const_zero a t v md k ht] at hb
    rcases List.mem_cons.mp hb with h | h
    · exact h
    · exact ih (k + 1) (some 0) b h

/-- C5: the zero-dispersion guard.  `modified_z_score` is defined to be
`0` whenever `mad = 0`; any warm `update` call (positive threshold) whose
recomputed `mad` is `0` returns `false`; and a stream of identical values
never produces a `true` verdict. -/
theorem zero_mad_never_flags :
    (∀ r : ℚ, modified_z_score r 0 = 0) ∧
    (∀ (s : AnomalyDetector) (e v : ℚ), s.current_ema = some e → 0 < s.threshold →
      (s.update v).2.mad = some 0 → (s.update v).1 = false) ∧
    (∀ (a t v : ℚ) (n : ℕ), 0 < t →
      ∀ b ∈ (runDetector (AnomalyDetector.init a t) (List.replicate n v)).1,
        b = false) := by
  refine ⟨fun r => by simp [modified_z_score], ?_, ?_⟩
  · intro s e v h ht hmad
    rw [update_some s e v h] at hmad ⊢
    simp only at hmad
    rw [Option.some_inj] at hmad
    simp only [hmad, decide_eq_false_iff_not, not_lt]
    have : modified_z_score (v - (s.ema_alpha * v + (1 - s.ema_alpha) * e)) 0 = 0 := by
      simp [modified_z_score]
    rw [this, abs_zero]
    exact ht.le
  · intro a t v n ht b hb
    cases n with
    | zero => exact absurd hb (by simp [runDetector])
    | succ n =>
      rw [List.replicate_succ, runDetector_cons] at hb
      have hcold : (AnomalyDetector.init a t).update v =
          (false, ⟨a, some v, some 0, t, List.replicate 1 0⟩) := rfl
      rw [hcold] at hb
      rcases List.mem_cons.mp hb with h | h
      · exact h
      · exact run_const_zero a t v ht n 1 (some 0) b h

/-- Witness for `zero_mad_never_flags`: a detector whose second call
repeats the first value has `mad = 0` there and returns `false`; forty
identical inputs produce only `false` verdicts. -/
theorem zero_mad_never_flags_witness :
    ((⟨1/10, some 10, some 0, 7/2, [0]⟩ : AnomalyDetector).update 10).1 = false ∧
    ∀ b ∈ (runDetector (AnomalyDetector.init (1/10) (7/2))
      (List.replicate 40 10)).1, b = false :=
  ⟨zero_mad_never_flags.2.1 ⟨1/10, some 10, some 0, 7/2, [0]⟩ 10 10 rfl
      (by with_unfolding_all decide) (by with_unfolding_all decide),
   zero_mad_never_flags.2.2 (1/10) (7/2) 10 40 (by with_unfolding_all decide)⟩

/-- The numpy median of a two-element list is the mean of its entries. -/
theorem npMedian_pair (x y : ℚ) : npMedian [x, y] = (x + y) / 2 := by
  have hs : sortQ [x, y] = if x ≤ y then [x, y] else [y, x] := by
    simp [sortQ, insertSorted]
  unfold npMedian
  rw [hs]
  rcases le_or_lt x y with h | h
  · rw [if_pos h]; norm_num
  · rw [if_neg (not_le.mpr h)]; norm_num [add_comm]

/-- On the second call the residual history is `[0, r]`, whose median is
`r/2`, so the dispersion is `|r|/2`. -/
theorem madCompute_second_call (r : ℚ) : madCompute ([0] ++ [r]) = |r| / 2 := by
  have hlen : ¬ (([0] ++ [r] : List ℚ).length > 30) := by simp
  unfold madCompute
  rw [if_neg hlen]
  have hm : npMedian ([0] ++ [r]) = r / 2 := by
    rw [show ([0] ++ [r] : List ℚ) = [0, r] from rfl, npMedian_pair]
    ring
  rw [hm]
  rw [show ([0] ++ [r] : List ℚ).map (fun x => |x - r / 2|) =
    [|0 - r / 2|, |r - r / 2|] from rfl]
  rw [npMedian_pair, zero_sub, abs_neg, show r - r / 2 = r / 2 from by ring,
    abs_div, abs_two]
  ring

/-- C9: for every threshold at least `1349/1000` (in particular the
default `3.5`), the second `update` call never flags, whatever the two
input values: the history `[0, r]` forces `|modified z| ∈ {0, 1349/1000}`. -/
theorem second_update_never_flags (a t v w : ℚ) (ht : 1349 / 1000 ≤ t) :
    (((AnomalyDetector.init a t).update v).2.update w).1 = false := by
  have h1 : ((AnomalyDetector.init a t).update v).2 =
      (⟨a, some v, some 0, t, [0]⟩ : AnomalyDetector) := rfl
  rw [h1, update_some (⟨a, some v, some 0, t, [0]⟩ : AnomalyDetector) v w rfl]
  show decide (|modified_z_score (w - (a * w + (1 - a) * v))
      (madCompute ([0] ++ [w - (a * w + (1 - a) * v)]))| > t) = false
  rw [madCompute_second_call]
  rcases eq_or_ne (w - (a * w + (1 - a) * v)) 0 with h0 | h0
  · rw [h0, abs_zero, zero_div,
      show modified_z_score 0 0 = 0 from by simp [modified_z_score], abs_zero]
    exact decide_eq_false (not_lt.mpr (le_trans (by norm_num) ht))
  · have habs : (0 : ℚ) < |w - (a * w + (1 - a) * v)| := abs_pos.mpr h0
    rw [modified_z_score, if_neg (by positivity)]
    have hz : |1349 / 2000 * (w - (a * w + (1 - a) * v)) /
        (|w - (a * w + (1 - a) * v)| / 2)| = 1349 / 1000 := by
      have hne : |w - (a * w + (1 - a) * v)| ≠ 0 := ne_of_gt habs
      rw [abs_div, abs_mul,
        abs_of_pos (show (0 : ℚ) < 1349 / 2000 from by norm_num),
        abs_of_pos (show (0 : ℚ) < |w - (a * w + (1 - a) * v)| / 2 from by positivity)]
      field_simp
      ring
    rw [hz]
    exact decide_eq_false (not_lt.mpr ht)

/-- Witness for `second_update_never_flags` at the default parameters. -/
theorem second_update_never_flags_witness :
    (((AnomalyDetector.init (1/10) (7/2)).update 0).2.update 1).1 = false :=
  second_update_never_flags (1/10) (7/2) 0 1 (by with_unfolding_all decide)

/-- Multiplying a finite float by NaN yields NaN. -/
theorem FP.mul_num_nan (q : ℚ) : FP.mul (FP.num q) FP.nan = FP.nan := rfl

/-- Adding anything to NaN yields NaN. -/
theorem FP.add_nan (x : FP) : FP.add FP.nan x = FP.nan := by
  cases x <;> rfl

/-- Subtracting anything from NaN yields NaN. -/
theorem FP.nan_sub (x : FP) : FP.sub FP.nan x = FP.nan := by
  cases x <;> rfl

/-- Subtracting NaN from anything yields NaN. -/
theorem FP.sub_nan (x : FP) : FP.sub x FP.nan = FP.nan := by
  cases x <;> rfl

/-- The absolute deviation from a NaN center is NaN. -/
theorem FP.fabs_sub_nan (x : FP) : FP.fabs (FP.sub x FP.nan) = FP.nan := by
  cases x <;> rfl

/-- A NaN anywhere in the input makes the float median NaN. -/
theorem npMedianFP_of_mem_nan (l : List FP) (h : FP.nan ∈ l) :
    npMedianFP l = FP.nan := by
  unfold npMedianFP
  rw [if_pos (List.any_eq_true.mpr ⟨FP.nan, h, rfl⟩)]

/-- C3 amended: `update` performs no finiteness check.  Fed NaN, a warm
detector runs the ordinary code path: NaN propagates into the baseline,
the appended residual and the dispersion, every NaN comparison is false,
so the call returns `false` — and the state is mutated, not left intact. -/
theorem update_nan_mutates_state (s : FPDetector) (f : FP)
    (h : s.current_ema = some f) :
    s.update FP.nan =
      (false, { s with current_ema := some FP.nan, mad := some FP.nan,
                       residuals := s.residuals ++ [FP.nan] }) := by
  obtain ⟨a, em, md, t, rs⟩ := s
  simp only at h
  subst h
  simp only [FPDetector.update, FP.mul_num_nan, FP.add_nan, FP.nan_sub]
  have hmem : FP.nan ∈ rs ++ [FP.nan] :=
    List.mem_append_right _ (List.mem_singleton.mpr rfl)
  have hfull : npMedianFP (rs ++ [FP.nan]) = FP.nan := npMedianFP_of_mem_nan _ hmem
  have hmad : (if (rs ++ [FP.nan]).length > 30 then
      npMedianFP (((rs ++ [FP.nan]).drop ((rs ++ [FP.nan]).length - 30)).map
        (fun r => FP.fabs (FP.sub r (npMedianFP (rs ++ [FP.nan])))))
    else
      npMedianFP ((rs ++ [FP.nan]).map
        (fun r => FP.fabs (FP.sub r (npMedianFP (rs ++ [FP.nan])))))) = FP.nan := by
    rw [hfull]
    split
    · next hgt =>
      have hne : ((rs ++ [FP.nan]).drop ((rs ++ [FP.nan]).length - 30)) ≠ [] := by
        have : ((rs ++ [FP.nan]).drop ((rs ++ [FP.nan]).length - 30)).length = 30 := by
          rw [List.length_drop]
          omega
        intro hnil
        rw [hnil] at this
        simp at this
      obtain ⟨x, hx⟩ := List.exists_mem_of_ne_nil _ hne
      have hx' : FP.fabs (FP.sub x FP.nan) ∈
          ((rs ++ [FP.nan]).drop ((rs ++ [FP.nan]).length - 30)).map
            (fun r => FP.fabs (FP.sub r FP.nan)) :=
        List.mem_map_of_mem _ hx
      rw [FP.fabs_sub_nan] at hx'
      exact npMedianFP_of_mem_nan _ hx'
    · have hmm : FP.nan ∈ (rs ++ [FP.nan]).map (fun r => FP.fabs (FP.sub r FP.nan)) :=
        List.mem_map_of_mem _ hmem
      exact npMedianFP_of_mem_nan _ hmm
  rw [hmad]
  rfl

/-- Witness for `update_nan_mutates_state` at a concrete warm state. -/
theorem update_nan_mutates_state_witness :
    (⟨1/10, some (FP.num 10), some (FP.num 0), 7/2, [FP.num 0]⟩ : FPDetector).update
        FP.nan =
      (false, ⟨1/10, some FP.nan, some FP.nan, 7/2, [FP.num 0, FP.nan]⟩) :=
  update_nan_mutates_state
    ⟨1/10, some (FP.num 10), some (FP.num 0), 7/2, [FP.num 0]⟩ (FP.num 10) rfl

/-- C3 counterexample: on a detector warmed with the single value `10`
(default parameters), calling `update` with NaN does NOT reject and does
NOT leave the state as it was: it returns the normal verdict `false` and
appends a NaN residual, mutating the history. -/
theorem update_nan_counterexample :
    ((((FPDetector.init (1/10) (7/2)).update (FP.num 10)).2).update FP.nan).1 = false ∧
    ((((FPDetector.init (1/10) (7/2)).update (FP.num 10)).2).update FP.nan).2 ≠
      ((FPDetector.init (1/10) (7/2)).update (FP.num 10)).2 ∧
    ((((FPDetector.init (1/10) (7/2)).update (FP.num 10)).2).update FP.nan).2.residuals =
      [FP.num 0, FP.nan] := by
  with_unfolding_all decide
